import Mathlib

/-!
Verification of the message debounce/aggregation engine and the
idle-triggered re-engagement scheduler of the Read-KouriChat repository.

The Python source is shallowly embedded:
* `MessageHandler._get_queue_key`, `_add_to_message_queue`,
  `_process_message_queue` (src/src/handlers/message.py) become pure
  functions over an explicit `HandlerState`; the dictionaries
  `message_queues` / `queue_timers` become maps `String → Option _`.
* Wall-clock instants and durations are rationals (Python floats are used
  only in comparisons and additions here, modelled exactly over ℚ; the
  jitter tolerance 0.1 becomes 1/10).
* `AutoSendHandler` (src/src/handlers/autosend.py) becomes an
  `AutoSendState` with pure transition functions; `threading.Timer`
  handles become numeric ids; `random.choice` / `random.uniform` become
  explicit index and duration arguments.
* External collaborators (link detection and extraction, the
  voice/random-image classifiers, network search) are oracle parameters.
-/

namespace ReadKouriChat

/-- A Python dict with string keys, embedded as a lookup function. -/
def Dict (α : Type) : Type := String → Option α

/-- The empty dict. -/
def dempty {α : Type} : Dict α := fun _ => none

/-- `d[k] = v` on a dict. -/
def dset {α : Type} (d : Dict α) (k : String) (v : α) : Dict α :=
  fun q => if q = k then some v else d q

/-- `d.pop(k)` / `del d[k]` on a dict (the removed value is returned
separately by the callers that need it). -/
def derase {α : Type} (d : Dict α) (k : String) : Dict α :=
  fun q => if q = k then none else d q

theorem dset_same {α : Type} (d : Dict α) (k : String) (v : α) :
    dset d k v k = some v := by
  simp [dset]

theorem dset_other {α : Type} (d : Dict α) (k q : String) (v : α) (h : q ≠ k) :
    dset d k v q = d q := by
  simp [dset, h]

theorem derase_same {α : Type} (d : Dict α) (k : String) :
    derase d k k = none := by
  simp [derase]

/-- Does the character sequence `l` start with `pat`? -/
def charSeqStarts : List Char → List Char → Bool
  | _, [] => true
  | [], _ :: _ => false
  | c :: cs, p :: ps => c == p && charSeqStarts cs ps

/-- Does the character sequence `l` contain `pat` as a contiguous run? -/
def charSeqHas : List Char → List Char → Bool
  | [], pat => charSeqStarts [] pat
  | c :: t, pat => charSeqStarts (c :: t) pat || charSeqHas t pat

/-- The Python `pat in s` substring test. -/
def strContains (s pat : String) : Bool :=
  charSeqHas s.data pat.data

/-- The Python `str.lower()` method (character-wise, as used on ASCII names here). -/
def lowerStr (s : String) : String :=
  ⟨s.data.map Char.toLower⟩

/-- `MessageHandler._get_queue_key` (src/src/handlers/message.py:130-133):
group chats key on `chat_id + "_" + sender_name`, private chats on
`chat_id` alone. -/
def get_queue_key (chat_id sender_name : String) (is_group : Bool) : String :=
  if is_group then chat_id ++ "_" ++ sender_name else chat_id

/-- One entry of `message_queues` (the per-key `queue_data` dict built in
`_add_to_message_queue`). -/
structure QueueData where
  messages : List String
  chat_id : String
  sender_name : String
  username : String
  is_group : Bool
  is_image_recognition : Bool
  last_update : ℚ
  has_link : Bool
  urls : List String
deriving Repr, DecidableEq

/-- The shared mutable state of `MessageHandler` guarded by `queue_lock`:
the queue store and the per-key debounce timer handles. -/
structure HandlerState where
  message_queues : Dict QueueData
  queue_timers : Dict Nat

/-- `MessageHandler._add_to_message_queue` (src/src/handlers/message.py:
287-362).  `detected` is the result of the external
`network_search_service.detect_urls(content)` oracle, `weblens_enabled`
the `WEBLENS_ENABLED` flag, `current_time_str` the formatted
`datetime.now()` capture timestamp, `now` the `time.time()` instant and
`new_timer` the handle of the freshly armed `threading.Timer`. -/
def add_to_message_queue (st : HandlerState) (content chat_id sender_name username : String)
    (is_group is_image_recognition : Bool) (weblens_enabled : Bool)
    (detected : List String) (current_time_str : String) (now : ℚ) (new_timer : Nat) :
    HandlerState :=
  let has_link := weblens_enabled && !detected.isEmpty
  let queue_key := get_queue_key chat_id sender_name is_group
  let queues :=
    match st.message_queues queue_key with
    | none =>
        dset st.message_queues queue_key
          { messages := ["[" ++ current_time_str ++ "]\n" ++ content]
            chat_id := chat_id
            sender_name := sender_name
            username := username
            is_group := is_group
            is_image_recognition := is_image_recognition
            last_update := now
            has_link := has_link
            urls := if has_link then detected else [] }
    | some qd =>
        dset st.message_queues queue_key
          { qd with
            messages := qd.messages ++ [content]
            last_update := now
            has_link := has_link || qd.has_link
            urls := if has_link then qd.urls ++ detected.take 1 else qd.urls }
  { message_queues := queues
    queue_timers := dset st.queue_timers queue_key new_timer }

/-- The three responders `_process_message_queue` can hand off to
(`_handle_voice_request`, `_handle_random_image_request`,
`_handle_text_message`). -/
inductive Responder
  | voice
  | image
  | text
deriving Repr, DecidableEq

/-- One responder hand-off with the arguments the code passes. -/
structure Dispatch where
  responder : Responder
  message : String
  chat_id : String
  sender_name : String
  username : String
  is_group : Bool
deriving Repr, DecidableEq

/-- The external collaborators consulted during a flush. -/
structure FlushOracles where
  weblens_enabled : Bool
  network_search_enabled : Bool
  extract_web_content : String → Option String
  network_search_result : Option String
  is_voice_request : String → Bool
  is_random_image_request : String → Bool

/-- `MessageHandler._check_time_reminder_and_search` (src/src/handlers/
message.py:1021-1139).  System senders are skipped; otherwise the live
code path returns truthy exactly when the marker string occurs in the
content (the remainder of the body is a quoted-out string literal). -/
def check_time_reminder_and_search (content sender_name : String) : Bool :=
  if sender_name == "System" || lowerStr sender_name == "system" then false
  else strContains content "可作为你的回复参考"

/-- Step 1 of the flush: `"\n".join(messages)`
(src/src/handlers/message.py:396). -/
def combined_message (qd : QueueData) : String :=
  String.intercalate "\n" qd.messages

/-- The combined string after the queued-link enrichment
(src/src/handlers/message.py:417-429). -/
def processed_after_link (oc : FlushOracles) (qd : QueueData) : String :=
  if qd.has_link && oc.weblens_enabled then
    match qd.urls with
    | [] => combined_message qd
    | u :: _ =>
        match oc.extract_web_content u with
        | some original => combined_message qd ++ "\n\n" ++ original
        | none => combined_message qd
  else combined_message qd

/-- The `search_handled` flag of `_process_message_queue`
(src/src/handlers/message.py:433). -/
def search_handled (oc : FlushOracles) (qd : QueueData) : Bool :=
  check_time_reminder_and_search (processed_after_link oc qd) qd.sender_name

/-- The combined string after the in-timeout network-search enrichment
(src/src/handlers/message.py:438-469); on a successful search the code
restarts from `combined_message`, discarding the link enrichment. -/
def processed_final (oc : FlushOracles) (qd : QueueData) : String :=
  if oc.network_search_enabled then
    match oc.network_search_result with
    | some original => combined_message qd ++ "\n\n" ++ original
    | none => processed_after_link oc qd
  else processed_after_link oc qd

/-- The classification / hand-off tail of `_process_message_queue`
(src/src/handlers/message.py:431-480) applied to a popped queue entry. -/
def process_flush (oc : FlushOracles) (qd : QueueData) : Dispatch :=
  if search_handled oc qd then
    { responder := Responder.text
      message := processed_after_link oc qd
      chat_id := qd.chat_id
      sender_name := qd.sender_name
      username := qd.username
      is_group := qd.is_group }
  else if oc.is_voice_request (processed_final oc qd) then
    { responder := Responder.voice
      message := processed_final oc qd
      chat_id := qd.chat_id
      sender_name := qd.sender_name
      username := qd.username
      is_group := qd.is_group }
  else if oc.is_random_image_request (processed_final oc qd) then
    { responder := Responder.image
      message := processed_final oc qd
      chat_id := qd.chat_id
      sender_name := qd.sender_name
      username := qd.username
      is_group := qd.is_group }
  else
    { responder := Responder.text
      message := processed_final oc qd
      chat_id := qd.chat_id
      sender_name := qd.sender_name
      username := qd.username
      is_group := qd.is_group }

/-- `MessageHandler._process_message_queue` (src/src/handlers/message.py:
364-484): the flush trigger fired by a debounce timer.  Returns the
updated shared state together with the responder hand-off, if any.  The
guard `now - last_update < QUEUE_TIMEOUT - 0.1` is the jitter-tolerance
re-check; both early returns leave the state untouched. -/
def process_message_queue (st : HandlerState) (queue_key : String)
    (now timeout : ℚ) (oc : FlushOracles) : HandlerState × Option Dispatch :=
  match st.message_queues queue_key with
  | none => (st, none)
  | some qd =>
      if now - qd.last_update < timeout - 1/10 then (st, none)
      else
        ({ message_queues := derase st.message_queues queue_key
           queue_timers := derase st.queue_timers queue_key },
         some (process_flush oc qd))

/-- Lock/IO events of one `_process_message_queue` invocation.  The whole
body of the function after the `try:` sits inside `with self.queue_lock:`
(src/src/handlers/message.py:368-480), so the trace opens with an acquire
and closes with the release performed when the `with` block is exited. -/
inductive Event
  | acquire
  | release
  | popEntry (queue_key : String)
  | extractLink (url : String)
  | classify
  | dispatch (r : Responder)
deriving Repr, DecidableEq

/-- The link-extraction I/O performed during a flush
(src/src/handlers/message.py:419-424). -/
def link_events (oc : FlushOracles) (qd : QueueData) : List Event :=
  if qd.has_link && oc.weblens_enabled then
    match qd.urls with
    | [] => []
    | u :: _ => [Event.extractLink u]
  else []

/-- The event trace of one `_process_message_queue` invocation.  Both
early returns leave the `with` block at once; a successful pop is
followed — still inside the block — by link extraction, classification
and the responder hand-off. -/
def process_message_queue_events (st : HandlerState) (queue_key : String)
    (now timeout : ℚ) (oc : FlushOracles) : List Event :=
  match st.message_queues queue_key with
  | none => [Event.acquire, Event.release]
  | some qd =>
      if now - qd.last_update < timeout - 1/10 then [Event.acquire, Event.release]
      else
        [Event.acquire, Event.popEntry queue_key] ++ link_events oc qd ++
          [Event.classify, Event.dispatch (process_flush oc qd).responder, Event.release]

/-- Is this event a responder hand-off? -/
def isDispatchEvent : Event → Bool
  | Event.dispatch _ => true
  | _ => false

/-- Does the trace perform a responder hand-off strictly between
acquiring and releasing the lock? -/
def dispatchInsideLock : List Event → Bool
  | Event.acquire :: rest =>
      match rest.getLast? with
      | some Event.release => rest.dropLast.any isDispatchEvent
      | _ => false
  | _ => false

/-- Parse a `"HH:MM"` string the way `datetime.strptime(s, "%H:%M")`
does: one or two digits for the hour (0-23), a literal colon, one or two
digits for the minute (0-59); anything else raises, i.e. yields `none`. -/
def splitColon : List Char → List (List Char)
  | [] => [[]]
  | c :: t =>
      let r := splitColon t
      if c = ':' then [] :: r
      else
        match r with
        | [] => [[c]]
        | h :: t2 => (c :: h) :: t2

/-- Decimal value of a digit run. -/
def digitsToNat (l : List Char) : Nat :=
  l.foldl (fun a c => a * 10 + (c.toNat - 48)) 0

/-- `(hour, minute)` of a well-formed `"HH:MM"` string, `none` on a parse
failure. -/
def parseHM (s : String) : Option (Nat × Nat) :=
  match splitColon s.data with
  | [h, m] =>
      if 1 ≤ h.length ∧ h.length ≤ 2 ∧ h.all Char.isDigit = true ∧
         1 ≤ m.length ∧ m.length ≤ 2 ∧ m.all Char.isDigit = true then
        let hv := digitsToNat h
        let mv := digitsToNat m
        if hv ≤ 23 ∧ mv ≤ 59 then some (hv, mv) else none
      else none
  | _ => none

/-- Seconds since midnight of a wall-clock `(hour, minute)`. -/
def hm_to_seconds (h m : Nat) : ℚ :=
  h * 3600 + m * 60

/-- `AutoSendHandler.is_quiet_time` (src/src/handlers/autosend.py:35-54):
`current` is the current time of day in seconds since midnight (a
`datetime.time` compares exactly like this number).  Parse errors are
caught and yield `false` (fail open). -/
def is_quiet_time (start_str end_str : String) (current : ℚ) : Bool :=
  match parseHM start_str, parseHM end_str with
  | some (sh, sm), some (eh, em) =>
      let quiet_start := hm_to_seconds sh sm
      let quiet_end := hm_to_seconds eh em
      if quiet_start ≤ quiet_end then
        decide (quiet_start ≤ current ∧ current ≤ quiet_end)
      else
        decide (current ≥ quiet_start ∨ current ≤ quiet_end)
  | _, _ => false

/-- The mutable fields of `AutoSendHandler`
(src/src/handlers/autosend.py:23-27); timer handles are numeric ids. -/
structure AutoSendState where
  countdown_timer : Option Nat
  is_countdown_running : Bool
  countdown_end_time : Option ℚ
  unanswered_count : Nat
  last_chat_time : Option ℚ
deriving Repr, DecidableEq

/-- The state built by `AutoSendHandler.__init__`. -/
def initialAutoSendState : AutoSendState :=
  { countdown_timer := none
    is_countdown_running := false
    countdown_end_time := none
    unanswered_count := 0
    last_chat_time := none }

/-- `AutoSendHandler.update_last_chat_time`
(src/src/handlers/autosend.py:29-33).  Note: this method has no call
site anywhere in the repository. -/
def update_last_chat_time (st : AutoSendState) (now : ℚ) : AutoSendState :=
  { st with last_chat_time := some now, unanswered_count := 0 }

/-- `AutoSendHandler.start_countdown` (src/src/handlers/autosend.py:
109-132): cancel any existing timer, sample `countdown_seconds`, set the
end time and arm a fresh timer. -/
def start_countdown (st : AutoSendState) (now countdown_seconds : ℚ)
    (new_timer : Nat) : AutoSendState :=
  { st with
    countdown_timer := some new_timer
    countdown_end_time := some (now + countdown_seconds)
    is_countdown_running := true }

/-- The only interaction of `ChatBot.handle_wxauto_message` with the
idle scheduler (src/src/main.py:76-78): it calls `start_countdown()`
and nothing else on `auto_sender`. -/
def handle_wxauto_message_idle_reset (st : AutoSendState)
    (now countdown_seconds : ℚ) (new_timer : Nat) : AutoSendState :=
  start_countdown st now countdown_seconds new_timer

/-- The fixed instruction the code appends to the configured template
(src/src/handlers/autosend.py:85); it mentions no attempt count. -/
def auto_send_instruction : String :=
  " 这是对方可能因为在忙碌或者有自己的事没有回复你，根据上下文联系，判断用户现在的状态，回复符合角色的话语。"

/-- The `reply_content` f-string of `auto_send_message`
(src/src/handlers/autosend.py:85). -/
def reply_content (template : String) : String :=
  template ++ auto_send_instruction

/-- One `message_handler.add_to_queue` call made by the idle scheduler. -/
structure OutreachMsg where
  chat_id : String
  content : String
  sender_name : String
  username : String
  is_group : Bool
deriving Repr, DecidableEq

/-- Outcome of one `auto_send_message` invocation: the new scheduler
state, the outreach enqueues performed, and whether `start_countdown`
was reached. -/
structure FireResult where
  state : AutoSendState
  enqueued : List OutreachMsg
  rearmed : Bool
deriving Repr, DecidableEq

/-- `AutoSendHandler.auto_send_message` (src/src/handlers/autosend.py:
64-107).  `current` is the time of day tested by `is_quiet_time`;
`pick` stands for the `random.choice` draw (any index, reduced modulo
the list length); `enqueue_ok` is false when `add_to_queue` raises, in
which case the `except` branch still re-arms. -/
def auto_send_message (st : AutoSendState) (quiet_start_str quiet_end_str : String)
    (current : ℚ) (listen_list : List String) (pick : Nat) (template : String)
    (enqueue_ok : Bool) (now countdown_seconds : ℚ) (new_timer : Nat) : FireResult :=
  if is_quiet_time quiet_start_str quiet_end_str current then
    { state := start_countdown st now countdown_seconds new_timer
      enqueued := []
      rearmed := true }
  else
    match listen_list with
    | [] =>
        { state := start_countdown st now countdown_seconds new_timer
          enqueued := []
          rearmed := true }
    | u :: us =>
        let user_id := (u :: us).getD (pick % (u :: us).length) ""
        let st1 := { st with unanswered_count := st.unanswered_count + 1 }
        let sent :=
          if enqueue_ok then
            [{ chat_id := user_id
               content := reply_content template
               sender_name := "System"
               username := "System"
               is_group := false } ]
          else []
        { state := start_countdown st1 now countdown_seconds new_timer
          enqueued := sent
          rearmed := true }

/-- The window predicate exactly as claim C5 words it: for a same-day
window (start ≤ end) suppression holds iff start ≤ current ≤ end; for an
overnight window (start > end) suppression holds iff current ≥ start or
current ≤ end.  Kept separate from `is_quiet_time` so the code can be
compared against the wording of the claim. -/
def quiet_window_claim (sh sm eh em : Nat) (current : ℚ) : Bool :=
  let window_start := hm_to_seconds sh sm
  let window_end := hm_to_seconds eh em
  if window_start ≤ window_end then
    decide (window_start ≤ current ∧ current ≤ window_end)
  else
    decide (current ≥ window_start ∨ current ≤ window_end)

/-- Evaluation helper: noon is outside the overnight window 22:00-08:00. -/
theorem quiet_2200_0800_noon : is_quiet_time "22:00" "08:00" 43200 = false := by
  have h1 : parseHM "22:00" = some (22, 0) := by decide
  have h2 : parseHM "08:00" = some (8, 0) := by decide
  simp only [is_quiet_time, h1, h2, hm_to_seconds]
  norm_num

/-- Evaluation helper: 23:30 is inside the overnight window 22:00-08:00. -/
theorem quiet_2200_0800_half_past_eleven :
    is_quiet_time "22:00" "08:00" 84600 = true := by
  have h1 : parseHM "22:00" = some (22, 0) := by decide
  have h2 : parseHM "08:00" = some (8, 0) := by decide
  simp only [is_quiet_time, h1, h2, hm_to_seconds]
  norm_num

/-- C5: the Quiet-Hours Policy returns suppression exactly per the
configured window — for a parsed same-day window (start ≤ end) it is
true iff start ≤ current ≤ end, for a parsed overnight window
(start > end) it is true iff current ≥ start or current ≤ end, and any
evaluation failure (malformed "HH:MM" configuration) yields false (fail
open). -/
theorem C5_quiet_hours_policy (s e : String) (current : ℚ) :
    ((parseHM s = none ∨ parseHM e = none) → is_quiet_time s e current = false) ∧
    (∀ sh sm eh em : Nat, parseHM s = some (sh, sm) → parseHM e = some (eh, em) →
      is_quiet_time s e current = quiet_window_claim sh sm eh em current) := by
  constructor
  · intro h
    cases hs : parseHM s with
    | none => simp [is_quiet_time, hs]
    | some p =>
        cases he : parseHM e with
        | none => simp [is_quiet_time, hs, he]
        | some q =>
            rcases h with h | h
            · exact absurd hs (h ▸ (by simp))
            · exact absurd he (h ▸ (by simp))
  · intro sh sm eh em hs he
    simp [is_quiet_time, hs, he, quiet_window_claim]

/-- C5 witness: the overnight window 22:00-08:00 evaluated at 23:30. -/
theorem C5_quiet_hours_policy_witness :
    is_quiet_time "22:00" "08:00" 84600 = quiet_window_claim 22 0 8 0 84600 :=
  (C5_quiet_hours_policy "22:00" "08:00" 84600).2 22 0 8 0 (by decide) (by decide)

/-- One idle fire at noon (not quiet) against target list `["A"]`. -/
def idle_fire_step (st : AutoSendState) (tid : Nat) : AutoSendState :=
  (auto_send_message st "22:00" "08:00" 43200 ["A"] 0 "T" true 0 10 tid).state

/-- C1: the claim says a real inbound message zeroes `unansweredCount`.
In the code, `ChatBot.handle_wxauto_message` only calls
`auto_sender.start_countdown()`; `update_last_chat_time` — the method
whose body performs the claimed reset and logs that it resets the
counter to 0 — has no call site anywhere in the repository.  After
three idle fires the counter is 3, a real inbound message re-arms the
timer but leaves the counter at 3, while the orphaned
`update_last_chat_time` would have reset it to 0. -/
theorem C1_idle_reset_missing :
    (idle_fire_step (idle_fire_step (idle_fire_step initialAutoSendState 1) 2) 3).unanswered_count
        = 3 ∧
    (handle_wxauto_message_idle_reset
        (idle_fire_step (idle_fire_step (idle_fire_step initialAutoSendState 1) 2) 3)
        100 10 4).unanswered_count = 3 ∧
    (handle_wxauto_message_idle_reset
        (idle_fire_step (idle_fire_step (idle_fire_step initialAutoSendState 1) 2) 3)
        100 10 4).countdown_timer = some 4 ∧
    (update_last_chat_time
        (idle_fire_step (idle_fire_step (idle_fire_step initialAutoSendState 1) 2) 3)
        100).unanswered_count = 0 := by
  have hq := quiet_2200_0800_noon
  simp [idle_fire_step, auto_send_message, hq, start_countdown,
    handle_wxauto_message_idle_reset, update_last_chat_time, initialAutoSendState]

/-- C10: the conversation key resolver is not injective — a group
message (chatId c, sender s) maps to `c ++ "_" ++ s`, which collides
with the key of a non-group conversation whose chatId is literally that
string, and distinct group pairs such as ("a_b", "c") and ("a", "b_c")
collide too. -/
theorem C10_key_collision :
    get_queue_key "c" "s" true = "c" ++ "_" ++ "s" ∧
    (get_queue_key "c" "s" true = get_queue_key "c_s" "x" false ∧
      (("c" : String), ("s" : String), true) ≠ (("c_s" : String), ("x" : String), false)) ∧
    (get_queue_key "a_b" "c" true = get_queue_key "a" "b_c" true ∧
      (("a_b" : String), ("c" : String), true) ≠ (("a" : String), ("b_c" : String), true)) := by
  decide

/-- The `random.choice` draw always lands inside a non-empty target
list. -/
theorem getD_pick_mem (u : String) (us : List String) (pick : Nat) :
    (u :: us).getD (pick % (u :: us).length) "" ∈ u :: us := by
  have hlt : pick % (u :: us).length < (u :: us).length :=
    Nat.mod_lt _ (by simp)
  rw [List.getD_eq_getElem _ _ hlt]
  exact List.getElem_mem hlt

/-- C6: every execution of the idle scheduler fire concludes by
re-arming the countdown — in the quiet-hours-suppressed branch (which
enqueues nothing and leaves the counter unchanged), in the
successful-send branch, in the enqueue-failure branch and in the
empty-target-list branch — and when not suppressed and the target list
is non-empty (and the enqueue does not raise) exactly one outreach
message is enqueued to a member of the target list (the `random.choice`
draw is modelled as an arbitrary index reduced modulo the list
length). -/
theorem C6_fire_always_rearms (st : AutoSendState) (qs qe : String) (current : ℚ)
    (listen : List String) (pick : Nat) (template : String) (enqueue_ok : Bool)
    (now cd : ℚ) (tid : Nat) (r : FireResult)
    (hr : r = auto_send_message st qs qe current listen pick template enqueue_ok now cd tid) :
    r.rearmed = true ∧
    r.state.countdown_timer = some tid ∧
    r.state.is_countdown_running = true ∧
    r.state.countdown_end_time = some (now + cd) ∧
    (is_quiet_time qs qe current = true →
      r.enqueued = [] ∧ r.state.unanswered_count = st.unanswered_count) ∧
    (is_quiet_time qs qe current = false → listen ≠ [] → enqueue_ok = true →
      r.enqueued.length = 1 ∧ ∀ m ∈ r.enqueued, m.chat_id ∈ listen) := by
  subst hr
  by_cases hq : is_quiet_time qs qe current = true
  · simp [auto_send_message, hq, start_countdown]
  · rw [Bool.not_eq_true] at hq
    cases listen with
    | nil => simp [auto_send_message, hq, start_countdown]
    | cons u us =>
        refine ⟨?_, ?_, ?_, ?_, ?_, ?_⟩ <;>
          simp [auto_send_message, hq, start_countdown]
        intro hok
        subst hok
        refine ⟨by simp, ?_⟩
        simpa using getD_pick_mem u us pick

/-- C6 witness: the two specification scenarios against the overnight
window 22:00-08:00 — at 23:30 the fire suppresses and re-arms, at 12:00
it enqueues exactly one outreach message to a member of the target
list. -/
theorem C6_fire_always_rearms_witness :
    ((auto_send_message initialAutoSendState "22:00" "08:00" 84600 ["A", "B"] 5 "T" true 0 10 9).enqueued = [] ∧
      (auto_send_message initialAutoSendState "22:00" "08:00" 84600 ["A", "B"] 5 "T" true 0 10 9).rearmed = true) ∧
    ((auto_send_message initialAutoSendState "22:00" "08:00" 43200 ["A", "B"] 5 "T" true 0 10 9).enqueued.length = 1 ∧
      (auto_send_message initialAutoSendState "22:00" "08:00" 43200 ["A", "B"] 5 "T" true 0 10 9).rearmed = true) := by
  have hnight := C6_fire_always_rearms initialAutoSendState "22:00" "08:00" 84600
    ["A", "B"] 5 "T" true 0 10 9 _ rfl
  have hnoon := C6_fire_always_rearms initialAutoSendState "22:00" "08:00" 43200
    ["A", "B"] 5 "T" true 0 10 9 _ rfl
  exact ⟨⟨(hnight.2.2.2.2.1 quiet_2200_0800_half_past_eleven).1, hnight.1⟩,
    ⟨(hnoon.2.2.2.2.2 quiet_2200_0800_noon (by simp) rfl).1, hnoon.1⟩⟩

/-- C7 (amended): when fire sends an outreach message (not suppressed,
non-empty target list, enqueue succeeds) it increments
`unanswered_count` and enqueues exactly one message — the configured
template text followed by a fixed standing instruction — with sender and
username "System" and `is_group = false`; the synthesized text does not
depend on `unanswered_count`. -/
theorem C7_outreach_message (st : AutoSendState) (qs qe : String) (current : ℚ)
    (listen : List String) (pick : Nat) (template : String)
    (now cd : ℚ) (tid : Nat) (u : String) (us : List String)
    (hq : is_quiet_time qs qe current = false) (hl : listen = u :: us) :
    (auto_send_message st qs qe current listen pick template true now cd tid).state.unanswered_count
        = st.unanswered_count + 1 ∧
    (auto_send_message st qs qe current listen pick template true now cd tid).enqueued =
      [{ chat_id := listen.getD (pick % listen.length) ""
         content := template ++ auto_send_instruction
         sender_name := "System"
         username := "System"
         is_group := false }] ∧
    (∀ st₂ : AutoSendState,
      (auto_send_message st₂ qs qe current listen pick template true now cd tid).enqueued =
        (auto_send_message st qs qe current listen pick template true now cd tid).enqueued) := by
  subst hl
  refine ⟨?_, ?_, ?_⟩ <;>
    simp [auto_send_message, hq, start_countdown, reply_content]

/-- C7 witness: a concrete successful fire at noon. -/
theorem C7_outreach_message_witness :
    (auto_send_message initialAutoSendState "22:00" "08:00" 43200 ["A"] 0 "hi" true 0 10 1).state.unanswered_count = 1 ∧
    (auto_send_message initialAutoSendState "22:00" "08:00" 43200 ["A"] 0 "hi" true 0 10 1).enqueued =
      [{ chat_id := "A"
         content := "hi" ++ auto_send_instruction
         sender_name := "System"
         username := "System"
         is_group := false }] := by
  have h := C7_outreach_message initialAutoSendState "22:00" "08:00" 43200
    ["A"] 0 "hi" 0 10 1 "A" [] quiet_2200_0800_noon rfl
  exact ⟨h.1, h.2.1⟩

/-- C7 counterexample: the claim says the synthesized message states
that this is attempt number `unansweredCount`, but the message in the code is
identical for counts 0 and 5 and contains no digit at all (in
particular not the attempt number "1" of the first fire). -/
theorem C7_attempt_number_counterexample :
    (auto_send_message initialAutoSendState "22:00" "08:00" 43200 ["A"] 0 "hi" true 0 10 1).enqueued =
      (auto_send_message { initialAutoSendState with unanswered_count := 5 }
        "22:00" "08:00" 43200 ["A"] 0 "hi" true 0 10 1).enqueued ∧
    (auto_send_message initialAutoSendState "22:00" "08:00" 43200 ["A"] 0 "hi" true 0 10 1).state.unanswered_count = 1 ∧
    (auto_send_message initialAutoSendState "22:00" "08:00" 43200 ["A"] 0 "hi" true 0 10 1).enqueued.map OutreachMsg.content =
      ["hi" ++ auto_send_instruction] ∧
    strContains ("hi" ++ auto_send_instruction) "1" = false := by
  have hq := quiet_2200_0800_noon
  refine ⟨?_, ?_, ?_, by decide⟩ <;>
    simp [auto_send_message, hq, start_countdown, reply_content, initialAutoSendState]

/-- C3: the flush trigger pops the queue entry and its timer handle
(and proceeds to process it) iff an entry exists for the key and the
elapsed time since its `last_update` is at least the configured timeout
minus the 0.1 s jitter tolerance; in every other case it is a no-op
leaving the state untouched — hence of two flush triggers for the same
key, at most one pops the entry. -/
theorem C3_flush_trigger_pop (st : HandlerState) (queue_key : String)
    (now timeout : ℚ) (oc : FlushOracles) :
    ((process_message_queue st queue_key now timeout oc).2.isSome = true ↔
      ∃ qd, st.message_queues queue_key = some qd ∧
        timeout - 1/10 ≤ now - qd.last_update) ∧
    ((process_message_queue st queue_key now timeout oc).2 = none →
      process_message_queue st queue_key now timeout oc = (st, none)) ∧
    (∀ qd, st.message_queues queue_key = some qd →
      timeout - 1/10 ≤ now - qd.last_update →
      process_message_queue st queue_key now timeout oc =
        ({ message_queues := derase st.message_queues queue_key
           queue_timers := derase st.queue_timers queue_key },
         some (process_flush oc qd)) ∧
      (process_message_queue st queue_key now timeout oc).1.message_queues queue_key = none ∧
      (process_message_queue st queue_key now timeout oc).1.queue_timers queue_key = none) ∧
    ((process_message_queue st queue_key now timeout oc).2.isSome = true →
      ∀ now₂, (process_message_queue
        (process_message_queue st queue_key now timeout oc).1 queue_key now₂ timeout oc).2 = none) := by
  cases h : st.message_queues queue_key with
  | none =>
      refine ⟨?_, ?_, ?_, ?_⟩ <;> simp [process_message_queue, h]
  | some qd =>
      by_cases hc : now - qd.last_update < timeout - 1/10
      · have hproc : process_message_queue st queue_key now timeout oc = (st, none) := by
          simp only [process_message_queue, h]
          rw [if_pos hc]
        refine ⟨?_, ?_, ?_, ?_⟩
        · rw [hproc]
          simp only [Option.isSome_none, Bool.false_eq_true, false_iff]
          rintro ⟨qd', e, hle⟩
          obtain rfl : qd' = qd := (Option.some.inj e).symm
          exact absurd hle (not_le.mpr hc)
        · intro _
          exact hproc
        · intro qd' e hle
          obtain rfl : qd' = qd := (Option.some.inj e).symm
          exact absurd hle (not_le.mpr hc)
        · intro hsome
          rw [hproc] at hsome
          simp at hsome
      · have hproc : process_message_queue st queue_key now timeout oc =
            ({ message_queues := derase st.message_queues queue_key
               queue_timers := derase st.queue_timers queue_key },
             some (process_flush oc qd)) := by
          simp only [process_message_queue, h]
          rw [if_neg hc]
        refine ⟨?_, ?_, ?_, ?_⟩
        · rw [hproc]
          simp only [Option.isSome_some, true_iff]
          exact ⟨qd, rfl, le_of_not_lt hc⟩
        · intro hnone
          rw [hproc] at hnone
          cases hnone
        · intro qd' e _
          obtain rfl : qd' = qd := (Option.some.inj e).symm
          exact ⟨hproc, by rw [hproc]; exact derase_same _ _,
            by rw [hproc]; exact derase_same _ _⟩
        · intro _ now₂
          rw [hproc]
          have hgone : (derase st.message_queues queue_key) queue_key = none :=
            derase_same _ _
          simp [process_message_queue, hgone]

/-- Concrete queue entry for the C3 witness. -/
def c3_queue : QueueData :=
  { messages := ["[2025-01-01 00:00:00]\nhello"]
    chat_id := "u"
    sender_name := "u"
    username := "u"
    is_group := false
    is_image_recognition := false
    last_update := 0
    has_link := false
    urls := [] }

/-- Concrete handler state for the C3 witness. -/
def c3_state : HandlerState :=
  { message_queues := fun k => if k = "u" then some c3_queue else none
    queue_timers := fun k => if k = "u" then some 7 else none }

/-- Inert flush collaborators for the C3 witness. -/
def c3_oracles : FlushOracles :=
  { weblens_enabled := false
    network_search_enabled := false
    extract_web_content := fun _ => none
    network_search_result := none
    is_voice_request := fun _ => false
    is_random_image_request := fun _ => false }

/-- C3 witness: a concrete state with one due entry — the first trigger
pops it, a second trigger for the same key is a no-op. -/
theorem C3_flush_trigger_pop_witness :
    (process_message_queue c3_state "u" 100 8 c3_oracles).2.isSome = true ∧
    (process_message_queue
      (process_message_queue c3_state "u" 100 8 c3_oracles).1 "u" 200 8 c3_oracles).2 = none :=
  ⟨((C3_flush_trigger_pop c3_state "u" 100 8 c3_oracles).1).mpr
      ⟨c3_queue, rfl, by norm_num [c3_queue]⟩,
    (C3_flush_trigger_pop c3_state "u" 100 8 c3_oracles).2.2.2
      (((C3_flush_trigger_pop c3_state "u" 100 8 c3_oracles).1).mpr
        ⟨c3_queue, rfl, by norm_num [c3_queue]⟩) 200⟩

/-- Creation branch of `_add_to_message_queue`: no entry for the key
yet, so one is created with the timestamp-prefixed first message. -/
theorem add_to_message_queue_creates (st : HandlerState)
    (content chat_id sender_name username : String) (is_group is_img : Bool)
    (weblens : Bool) (det : List String) (ts : String) (now : ℚ) (t : Nat)
    (h : st.message_queues (get_queue_key chat_id sender_name is_group) = none) :
    (add_to_message_queue st content chat_id sender_name username is_group is_img
        weblens det ts now t).message_queues
      (get_queue_key chat_id sender_name is_group) =
      some { messages := ["[" ++ ts ++ "]\n" ++ content]
             chat_id := chat_id
             sender_name := sender_name
             username := username
             is_group := is_group
             is_image_recognition := is_img
             last_update := now
             has_link := weblens && !det.isEmpty
             urls := if weblens && !det.isEmpty then det else [] } := by
  simp [add_to_message_queue, h, dset_same]

/-- Append branch of `_add_to_message_queue`: the entry exists, so the
message is appended unprefixed, `has_link` is OR-accumulated and a
detected link contributes its first URL. -/
theorem add_to_message_queue_appends (st : HandlerState)
    (content chat_id sender_name username : String) (is_group is_img : Bool)
    (weblens : Bool) (det : List String) (ts : String) (now : ℚ) (t : Nat)
    (qd : QueueData)
    (h : st.message_queues (get_queue_key chat_id sender_name is_group) = some qd) :
    (add_to_message_queue st content chat_id sender_name username is_group is_img
        weblens det ts now t).message_queues
      (get_queue_key chat_id sender_name is_group) =
      some { qd with
             messages := qd.messages ++ [content]
             last_update := now
             has_link := (weblens && !det.isEmpty) || qd.has_link
             urls := if weblens && !det.isEmpty then qd.urls ++ det.take 1 else qd.urls } := by
  simp [add_to_message_queue, h, dset_same]

/-- C8: enqueuing a message without a link and then one whose detected
URL list starts with `u` yields a queue entry with `has_link = true` and
`urls = [u]`; in general `has_link` is OR-accumulated on append, and an
appended message that carries a link contributes exactly the first
detected URL. -/
theorem C8_link_accumulation (st : HandlerState)
    (chat_id sender_name username : String) (is_group is_img : Bool)
    (contentA contentB u : String) (restUrls : List String)
    (tsA tsB : String) (nowA nowB : ℚ) (t1 t2 : Nat)
    (h : st.message_queues (get_queue_key chat_id sender_name is_group) = none) :
    (∃ qd,
      (add_to_message_queue
        (add_to_message_queue st contentA chat_id sender_name username is_group is_img
          true [] tsA nowA t1)
        contentB chat_id sender_name username is_group is_img
        true (u :: restUrls) tsB nowB t2).message_queues
          (get_queue_key chat_id sender_name is_group) = some qd ∧
      qd.has_link = true ∧ qd.urls = [u] ∧
      qd.messages = ["[" ++ tsA ++ "]\n" ++ contentA, contentB]) ∧
    (∀ (st₂ : HandlerState) (qd : QueueData) (content ts : String) (now : ℚ)
        (t : Nat) (weblens : Bool) (det : List String),
      st₂.message_queues (get_queue_key chat_id sender_name is_group) = some qd →
      ∃ qd₂,
        (add_to_message_queue st₂ content chat_id sender_name username is_group is_img
          weblens det ts now t).message_queues
            (get_queue_key chat_id sender_name is_group) = some qd₂ ∧
        qd₂.has_link = ((weblens && !det.isEmpty) || qd.has_link) ∧
        qd₂.urls = (if weblens && !det.isEmpty then qd.urls ++ det.take 1 else qd.urls) ∧
        qd₂.messages = qd.messages ++ [content]) := by
  constructor
  · have h1 := add_to_message_queue_creates st contentA chat_id sender_name username
      is_group is_img true [] tsA nowA t1 h
    have h2 := add_to_message_queue_appends _ contentB chat_id sender_name username
      is_group is_img true (u :: restUrls) tsB nowB t2 _ h1
    refine ⟨_, h2, ?_, ?_, ?_⟩ <;> simp
  · intro st₂ qd content ts now t weblens det h₂
    exact ⟨_, add_to_message_queue_appends st₂ content chat_id sender_name username
      is_group is_img weblens det ts now t qd h₂, rfl, rfl, rfl⟩

/-- C8 witness: concrete two-message run from an empty store. -/
theorem C8_link_accumulation_witness :
    ∃ qd,
      (add_to_message_queue
        (add_to_message_queue { message_queues := dempty, queue_timers := dempty }
          "hello" "c" "s" "s" false false true [] "ts1" 0 1)
        "see this http" "c" "s" "s" false false
        true ["http"] "ts2" 3 2).message_queues
          (get_queue_key "c" "s" false) = some qd ∧
      qd.has_link = true ∧ qd.urls = ["http"] ∧
      qd.messages = ["[" ++ "ts1" ++ "]\n" ++ "hello", "see this http"] :=
  (C8_link_accumulation { message_queues := dempty, queue_timers := dempty }
    "c" "s" "s" false false "hello" "see this http" "http" []
    "ts1" "ts2" 0 3 1 2 rfl).1

/-- The link-extraction events of a flush form the empty list or a
single extraction. -/
theorem link_events_shape (oc : FlushOracles) (qd : QueueData) :
    link_events oc qd = [] ∨ ∃ u, link_events oc qd = [Event.extractLink u] := by
  unfold link_events
  by_cases h : (qd.has_link && oc.weblens_enabled) = true
  · rw [if_pos h]
    cases qd.urls with
    | nil => exact Or.inl rfl
    | cons u us => exact Or.inr ⟨u, rfl⟩
  · rw [if_neg h]
    exact Or.inl rfl

/-- A trace of the popped shape always has its dispatch strictly between
the acquire and the release. -/
theorem dispatchInsideLock_shape (k : String) (le : List Event) (r : Responder)
    (hle : le = [] ∨ ∃ u, le = [Event.extractLink u]) :
    dispatchInsideLock ([Event.acquire, Event.popEntry k] ++ le ++
      [Event.classify, Event.dispatch r, Event.release]) = true := by
  rcases hle with rfl | ⟨u, rfl⟩ <;> rfl

/-- C2 (amended): the queue lock is NOT released after the pop — for
every flush that pops a queue entry, the link extraction, the
classification and the responder dispatch all execute while the lock is
still held; the lock is released only after the dispatch returns. -/
theorem C2_lock_held_across_dispatch (st : HandlerState) (queue_key : String)
    (now timeout : ℚ) (oc : FlushOracles)
    (hpop : (process_message_queue st queue_key now timeout oc).2.isSome = true) :
    dispatchInsideLock (process_message_queue_events st queue_key now timeout oc) = true := by
  cases h : st.message_queues queue_key with
  | none =>
      exfalso
      simp [process_message_queue, h] at hpop
  | some qd =>
      by_cases hc : now - qd.last_update < timeout - 1/10
      · exfalso
        simp only [process_message_queue, h] at hpop
        rw [if_pos hc] at hpop
        simp at hpop
      · have hev : process_message_queue_events st queue_key now timeout oc =
            [Event.acquire, Event.popEntry queue_key] ++ link_events oc qd ++
              [Event.classify, Event.dispatch (process_flush oc qd).responder,
                Event.release] := by
          simp only [process_message_queue_events, h]
          rw [if_neg hc]
        rw [hev]
        exact dispatchInsideLock_shape _ _ _ (link_events_shape oc qd)

/-- Concrete queue entry for the C2 counterexample. -/
def c2_queue : QueueData :=
  { messages := ["[2025-01-01 00:00:00]\nhello"]
    chat_id := "v"
    sender_name := "v"
    username := "v"
    is_group := false
    is_image_recognition := false
    last_update := 0
    has_link := false
    urls := [] }

/-- Concrete handler state for the C2 counterexample. -/
def c2_state : HandlerState :=
  { message_queues := fun k => if k = "v" then some c2_queue else none
    queue_timers := fun k => if k = "v" then some 3 else none }

/-- Inert flush collaborators for C2. -/
def c2_oracles : FlushOracles :=
  { weblens_enabled := false
    network_search_enabled := false
    extract_web_content := fun _ => none
    network_search_result := none
    is_voice_request := fun _ => false
    is_random_image_request := fun _ => false }

/-- C2 counterexample: a concrete flush that pops its entry and whose
responder dispatch happens between the lock acquire and the lock
release — refuting the claim that the lock is released immediately
after the pop and that dispatch executes outside the lock. -/
theorem C2_dispatch_inside_lock_counterexample :
    (process_message_queue c2_state "v" 100 8 c2_oracles).2.isSome = true ∧
    process_message_queue_events c2_state "v" 100 8 c2_oracles =
      [Event.acquire, Event.popEntry "v", Event.classify,
        Event.dispatch Responder.text, Event.release] ∧
    dispatchInsideLock (process_message_queue_events c2_state "v" 100 8 c2_oracles) = true := by
  have h : c2_state.message_queues "v" = some c2_queue := rfl
  have hc : ¬((100 : ℚ) - c2_queue.last_update < 8 - 1/10) := by
    norm_num [c2_queue]
  have hev : process_message_queue_events c2_state "v" 100 8 c2_oracles =
      [Event.acquire, Event.popEntry "v", Event.classify,
        Event.dispatch Responder.text, Event.release] := by
    simp only [process_message_queue_events, h]
    rw [if_neg hc]
    rfl
  refine ⟨?_, hev, ?_⟩
  · simp only [process_message_queue, h]
    rw [if_neg hc]
    rfl
  · rw [hev]
    rfl

/-- Concrete queue entry for the C2 witness. -/
def c2w_queue : QueueData :=
  { messages := ["[2025-01-01 00:00:00]\nhi there"]
    chat_id := "w"
    sender_name := "w"
    username := "w"
    is_group := false
    is_image_recognition := false
    last_update := 1
    has_link := false
    urls := [] }

/-- Concrete handler state for the C2 witness. -/
def c2w_state : HandlerState :=
  { message_queues := fun k => if k = "w" then some c2w_queue else none
    queue_timers := fun k => if k = "w" then some 5 else none }

/-- C2 witness: the amended theorem applied to a concrete popping
flush. -/
theorem C2_lock_held_across_dispatch_witness :
    dispatchInsideLock (process_message_queue_events c2w_state "w" 100 8 c2_oracles) = true :=
  C2_lock_held_across_dispatch c2w_state "w" 100 8 c2_oracles (by
    have h : c2w_state.message_queues "w" = some c2w_queue := rfl
    simp only [process_message_queue, h]
    rw [if_neg (by norm_num [c2w_queue] :
      ¬((100 : ℚ) - c2w_queue.last_update < 8 - 1/10))]
    rfl)

/-- The classification exactly as claim C9 words it: three mutually
exclusive priority-ordered predicates, voice request first, then
random-image request, otherwise plain text. -/
def claim9_responder (oc : FlushOracles) (qd : QueueData) : Responder :=
  if oc.is_voice_request (processed_final oc qd) then Responder.voice
  else if oc.is_random_image_request (processed_final oc qd) then Responder.image
  else Responder.text

/-- C9 (amended): every flushed batch is dispatched to exactly one
responder, which receives the `chat_id`, `sender_name`,
`username` and `is_group`; when the search pre-check does not fire the
classification is priority-ordered voice, then random-image, otherwise
text; when the pre-check fires (combined string contains the search
marker and the sender is not "System") the text responder is dispatched
directly. -/
theorem C9_flush_classification (oc : FlushOracles) (qd : QueueData) :
    ((process_flush oc qd).chat_id = qd.chat_id ∧
      (process_flush oc qd).sender_name = qd.sender_name ∧
      (process_flush oc qd).username = qd.username ∧
      (process_flush oc qd).is_group = qd.is_group) ∧
    (search_handled oc qd = true → (process_flush oc qd).responder = Responder.text) ∧
    (search_handled oc qd = false →
      (process_flush oc qd).responder = claim9_responder oc qd) ∧
    (search_handled oc qd = false → oc.is_voice_request (processed_final oc qd) = true →
      (process_flush oc qd).responder = Responder.voice) := by
  by_cases hs : search_handled oc qd = true
  · refine ⟨?_, ?_, ?_, ?_⟩ <;> simp [process_flush, hs]
  · rw [Bool.not_eq_true] at hs
    by_cases hv : oc.is_voice_request (processed_final oc qd) = true
    · refine ⟨?_, ?_, ?_, ?_⟩ <;> simp [process_flush, claim9_responder, hs, hv]
    · rw [Bool.not_eq_true] at hv
      by_cases hi : oc.is_random_image_request (processed_final oc qd) = true
      · refine ⟨?_, ?_, ?_, ?_⟩ <;> simp [process_flush, claim9_responder, hs, hv, hi]
      · rw [Bool.not_eq_true] at hi
        refine ⟨?_, ?_, ?_, ?_⟩ <;> simp [process_flush, claim9_responder, hs, hv, hi]

/-- Queue entry whose combined string contains the search marker. -/
def c9_queue : QueueData :=
  { messages := ["[2025-01-01 00:00:00]\n帮我看看 可作为你的回复参考"]
    chat_id := "v"
    sender_name := "v"
    username := "v"
    is_group := false
    is_image_recognition := false
    last_update := 0
    has_link := false
    urls := [] }

/-- Collaborators whose voice classifier always answers yes. -/
def c9_oracles : FlushOracles :=
  { weblens_enabled := false
    network_search_enabled := false
    extract_web_content := fun _ => none
    network_search_result := none
    is_voice_request := fun _ => true
    is_random_image_request := fun _ => false }

/-- C9 counterexample: a flushed batch whose combined string contains
the search marker is dispatched to the text responder even though the
voice predicate holds, so the dispatch is not the claimed voice-first
priority classification. -/
theorem C9_priority_counterexample :
    c9_oracles.is_voice_request (processed_final c9_oracles c9_queue) = true ∧
    claim9_responder c9_oracles c9_queue = Responder.voice ∧
    (process_flush c9_oracles c9_queue).responder = Responder.text := by
  decide

/-- Queue entry without the search marker for the C9 witness. -/
def c9w_queue : QueueData :=
  { messages := ["[2025-01-01 00:00:00]\n来一条语音"]
    chat_id := "v"
    sender_name := "v"
    username := "v"
    is_group := false
    is_image_recognition := false
    last_update := 0
    has_link := false
    urls := [] }

/-- C9 witness: without the search pre-check the voice predicate wins
the priority-ordered classification. -/
theorem C9_flush_classification_witness :
    (process_flush c9_oracles c9w_queue).responder = Responder.voice :=
  (C9_flush_classification c9_oracles c9w_queue).2.2.2 (by decide) (by decide)

/-- One `_add_to_message_queue` invocation for a fixed conversation:
the message text, the capture timestamp, the `time.time()` instant, the
detected URLs, the `WEBLENS_ENABLED` flag and the fresh timer handle. -/
structure EnqueueCall where
  content : String
  time_str : String
  now : ℚ
  detected : List String
  weblens : Bool
  timer : Nat

/-- A sequence of `_add_to_message_queue` calls for one conversation
(fixed `chat_id`, `sender_name`, `username`, flags), with no flush in
between. -/
def run_enqueues (chat_id sender_name username : String) (is_group is_img : Bool) :
    HandlerState → List EnqueueCall → HandlerState
  | st, [] => st
  | st, c :: cs =>
      run_enqueues chat_id sender_name username is_group is_img
        (add_to_message_queue st c.content chat_id sender_name username is_group is_img
          c.weblens c.detected c.time_str c.now c.timer) cs

/-- Appending a run of enqueues to an existing entry extends its message
list in arrival order, all unprefixed, and leaves `last_update` at the
instant of the final call. -/
theorem run_enqueues_existing (chat_id sender_name username : String)
    (is_group is_img : Bool) (cs : List EnqueueCall) :
    ∀ (st : HandlerState) (qd : QueueData),
      st.message_queues (get_queue_key chat_id sender_name is_group) = some qd →
      ∃ qd₂,
        (run_enqueues chat_id sender_name username is_group is_img st cs).message_queues
          (get_queue_key chat_id sender_name is_group) = some qd₂ ∧
        qd₂.messages = qd.messages ++ cs.map EnqueueCall.content ∧
        qd₂.last_update = (cs.map EnqueueCall.now).getLastD qd.last_update := by
  induction cs with
  | nil =>
      intro st qd h
      exact ⟨qd, h, by simp, by simp⟩
  | cons c cs ih =>
      intro st qd h
      have hstep := add_to_message_queue_appends st c.content chat_id sender_name username
        is_group is_img c.weblens c.detected c.time_str c.now c.timer qd h
      obtain ⟨qd₂, h₂, hm, hl⟩ := ih _ _ hstep
      refine ⟨qd₂, h₂, ?_, ?_⟩
      · simp only [hm]
        simp [List.append_assoc]
      · rw [hl, List.map_cons, List.getLastD_cons]

/-- C4: starting from a store with no entry for the key, N enqueues for
the same key buffer exactly those N messages in arrival order with only
the first carrying the timestamp prefix; a flush whose elapsed-time
guard passes joins them with newline separators into one combined
string and pops the entry, and any later flush trigger for the key is a
no-op — exactly one flush containing all N messages. -/
theorem C4_coalescing (st : HandlerState) (chat_id sender_name username : String)
    (is_group is_img : Bool) (c : EnqueueCall) (cs : List EnqueueCall)
    (timeout flush_now : ℚ) (oc : FlushOracles)
    (h : st.message_queues (get_queue_key chat_id sender_name is_group) = none)
    (hlate : timeout - 1/10 ≤
      flush_now - ((c :: cs).map EnqueueCall.now).getLastD 0) :
    ∃ qd,
      (run_enqueues chat_id sender_name username is_group is_img st (c :: cs)).message_queues
        (get_queue_key chat_id sender_name is_group) = some qd ∧
      qd.messages =
        ("[" ++ c.time_str ++ "]\n" ++ c.content) :: cs.map EnqueueCall.content ∧
      combined_message qd = String.intercalate "\n"
        (("[" ++ c.time_str ++ "]\n" ++ c.content) :: cs.map EnqueueCall.content) ∧
      (process_message_queue
          (run_enqueues chat_id sender_name username is_group is_img st (c :: cs))
          (get_queue_key chat_id sender_name is_group) flush_now timeout oc).2 =
        some (process_flush oc qd) ∧
      (∀ now₂, (process_message_queue
          (process_message_queue
            (run_enqueues chat_id sender_name username is_group is_img st (c :: cs))
            (get_queue_key chat_id sender_name is_group) flush_now timeout oc).1
          (get_queue_key chat_id sender_name is_group) now₂ timeout oc).2 = none) := by
  have hcreate := add_to_message_queue_creates st c.content chat_id sender_name username
    is_group is_img c.weblens c.detected c.time_str c.now c.timer h
  obtain ⟨qd, hq, hm, hl⟩ :=
    run_enqueues_existing chat_id sender_name username is_group is_img cs _ _ hcreate
  have hrun : run_enqueues chat_id sender_name username is_group is_img st (c :: cs) =
      run_enqueues chat_id sender_name username is_group is_img
        (add_to_message_queue st c.content chat_id sender_name username is_group is_img
          c.weblens c.detected c.time_str c.now c.timer) cs := rfl
  rw [hrun]
  have hmsgs : qd.messages =
      ("[" ++ c.time_str ++ "]\n" ++ c.content) :: cs.map EnqueueCall.content := by
    simpa using hm
  have hlast : qd.last_update = ((c :: cs).map EnqueueCall.now).getLastD 0 := by
    simp only [List.map_cons, List.getLastD_cons]
    simpa using hl
  have hguard : ¬(flush_now - qd.last_update < timeout - 1/10) := by
    rw [hlast]
    exact not_lt.mpr hlate
  have hproc : process_message_queue
      (run_enqueues chat_id sender_name username is_group is_img
        (add_to_message_queue st c.content chat_id sender_name username is_group is_img
          c.weblens c.detected c.time_str c.now c.timer) cs)
      (get_queue_key chat_id sender_name is_group) flush_now timeout oc =
      ({ message_queues := derase (run_enqueues chat_id sender_name username is_group is_img
            (add_to_message_queue st c.content chat_id sender_name username is_group is_img
              c.weblens c.detected c.time_str c.now c.timer) cs).message_queues
            (get_queue_key chat_id sender_name is_group)
         queue_timers := derase (run_enqueues chat_id sender_name username is_group is_img
            (add_to_message_queue st c.content chat_id sender_name username is_group is_img
              c.weblens c.detected c.time_str c.now c.timer) cs).queue_timers
            (get_queue_key chat_id sender_name is_group) },
       some (process_flush oc qd)) := by
    simp only [process_message_queue, hq]
    rw [if_neg hguard]
  refine ⟨qd, hq, hmsgs, by simp [combined_message, hmsgs], ?_, ?_⟩
  · rw [hproc]
  · intro now₂
    rw [hproc]
    simp [process_message_queue, derase_same]

/-- First enqueue of the C4 witness run. -/
def c4_call_one : EnqueueCall :=
  { content := "hello", time_str := "ts1", now := 0, detected := [], weblens := false, timer := 1 }

/-- Second enqueue of the C4 witness run. -/
def c4_call_two : EnqueueCall :=
  { content := "world", time_str := "ts2", now := 3, detected := [], weblens := false, timer := 2 }

/-- Inert flush collaborators for the C4 witness. -/
def c4_oracles : FlushOracles :=
  { weblens_enabled := false
    network_search_enabled := false
    extract_web_content := fun _ => none
    network_search_result := none
    is_voice_request := fun _ => false
    is_random_image_request := fun _ => false }

/-- C4 witness: two concrete enqueues from an empty store, flushed once
at a due instant. -/
theorem C4_coalescing_witness :
    ∃ qd,
      (run_enqueues "c" "s" "s" false false
        { message_queues := dempty, queue_timers := dempty }
        [c4_call_one, c4_call_two]).message_queues
          (get_queue_key "c" "s" false) = some qd ∧
      qd.messages =
        ("[" ++ c4_call_one.time_str ++ "]\n" ++ c4_call_one.content)
          :: [c4_call_two].map EnqueueCall.content ∧
      combined_message qd = String.intercalate "\n"
        (("[" ++ c4_call_one.time_str ++ "]\n" ++ c4_call_one.content)
          :: [c4_call_two].map EnqueueCall.content) ∧
      (process_message_queue
          (run_enqueues "c" "s" "s" false false
            { message_queues := dempty, queue_timers := dempty }
            [c4_call_one, c4_call_two])
          (get_queue_key "c" "s" false) 12 8 c4_oracles).2 =
        some (process_flush c4_oracles qd) ∧
      (∀ now₂, (process_message_queue
          (process_message_queue
            (run_enqueues "c" "s" "s" false false
              { message_queues := dempty, queue_timers := dempty }
              [c4_call_one, c4_call_two])
            (get_queue_key "c" "s" false) 12 8 c4_oracles).1
          (get_queue_key "c" "s" false) now₂ 8 c4_oracles).2 = none) :=
  C4_coalescing { message_queues := dempty, queue_timers := dempty }
    "c" "s" "s" false false c4_call_one [c4_call_two] 8 12 c4_oracles rfl
    (by norm_num [c4_call_one, c4_call_two, List.getLastD_cons])

end ReadKouriChat
